import Mathlib

/-!
Shallow embedding of the navi-agent conversational orchestrator.

The definitions below are translated from the repository's Python sources:

* `src/gradio_main.py` — the `Assistant` re-prompt loop (`Assistant.__call__`),
  the batch tool dispatcher (`create_tool_node_with_fallback` /
  `tool_node_with_fallback`) and the router `tools_condition`;
* `src/src/agent/agent.py` — `create_agent`'s router `should_continue` and
  model node `call_model`;
* `src/main.py` — the REPL turn loop that accumulates streamed state chunks;
* `src/app.py` — the per-turn state construction, the special-cased argument
  coercion for `analyze_single_stock_and_fixed_savings`, and the Clear Chat
  reset;
* `src/src/tools/options.py` — `calculate_option_profit`'s input validation;
* `src/src/tools/compound_interest_calculator.py` —
  `calculate_compound_interest`'s numeric core.

Python floats are modelled as `Rat` (the validation and zero-rate arithmetic
proved about are exact), ages and counts as `Int` exactly as Python's
unbounded ints, exceptions as explicit `Except` / `Option` error channels,
and the unbounded `while True` loop with an explicit fuel parameter
(`none` = the loop is still running after that many iterations).
-/

namespace NaviAgent

/-- An argument value as the model supplies it: JSON-ish, either text or a
number (numeric fields may arrive as strings, `spec.md` section 3). -/
inductive JVal where
  | str (s : String)
  | num (q : Rat)
deriving DecidableEq

/-- `tool_call['args']`: a mapping from parameter name to value, modelled as
an association list in insertion order (Python dicts preserve it). -/
abbrev Args := List (String × JVal)

/-- One entry of an assistant message's `tool_calls` list. -/
structure ToolCall where
  id : String
  name : String
  args : Args
deriving DecidableEq

/-- What one call of a tool's `invoke` does: return a report string, or raise
an exception carrying a message (`str(e)`). -/
inductive ToolOutcome where
  | ok (output : String)
  | exn (message : String)
deriving DecidableEq

/-- A registered tool as the dispatcher sees it: a `name` and an `invoke`
function (the `tools` list of `create_tool_node_with_fallback`). -/
structure RTool where
  name : String
  invoke : Args → ToolOutcome

/-- One iteration of the dispatch loop in `tool_node_with_fallback`
(`src/gradio_main.py` lines 150-160): find the first tool whose name matches
(`next((t for t in tools if t.name == name), None)`), invoke it — an
exception becomes the `error` branch — and for an unknown name append the
literal not-found string.  Results are plain strings: no `tool_call_id` is
attached anywhere in this code. -/
def perCallResult (tools : List RTool) (c : ToolCall) : Except String String :=
  match tools.find? (fun t => t.name == c.name) with
  | some t =>
    match t.invoke c.args with
    | ToolOutcome.ok r => Except.ok r
    | ToolOutcome.exn m => Except.error m
  | none => Except.ok ("Tool " ++ c.name ++ " not found")

/-- The dispatch loop of `tool_node_with_fallback`: iterate over
`messages.tool_calls` accumulating `tool_results`.  The `try` block wraps the
WHOLE loop, so the first exception aborts the iteration and discards every
result accumulated so far (`Except.error`). -/
def runToolCalls (tools : List RTool) : List ToolCall → Except String (List String)
  | [] => Except.ok []
  | c :: rest =>
    match perCallResult tools c with
    | Except.ok r => (runToolCalls tools rest).map (fun rs => r :: rs)
    | Except.error m => Except.error m

/-- What the dispatch node returns as `{"messages": ...}`: either the list of
per-call result strings, or one single string (the no-tool-calls placeholder,
or the batch-level caught-exception message). -/
inductive NodeMsgs where
  | results (msgs : List String)
  | text (msg : String)
deriving DecidableEq

/-- `tool_node_with_fallback` (`src/gradio_main.py` lines 144-167).  The
Python guard `hasattr(messages, 'tool_calls') and messages.tool_calls` is
modelled by passing the (possibly empty) `tool_calls` list of the last
message.  The caught exception's message is
`f"Error executing tool: {str(e)}\n{traceback.format_exc()}"`; the
runtime-dependent traceback suffix is not modelled. -/
def tool_node_with_fallback (tools : List RTool) (tool_calls : List ToolCall) : NodeMsgs :=
  if tool_calls.isEmpty then NodeMsgs.text "No tool calls to execute"
  else
    match runToolCalls tools tool_calls with
    | Except.ok rs => NodeMsgs.results rs
    | Except.error m => NodeMsgs.text ("Error executing tool: " ++ m)

/-- The messages carried by a node output, as a list. -/
def messagesOf : NodeMsgs → List String
  | NodeMsgs.results rs => rs
  | NodeMsgs.text s => [s]

/-- Boolean success test on a per-call result. -/
def exceptIsOk : Except String String → Bool
  | Except.ok _ => true
  | Except.error _ => false

/-! Concrete dispatcher inputs used to evaluate the dispatcher on failing
batches. -/

/-- A registry whose only tool raises on every invocation. -/
def cex1Tools : List RTool :=
  [⟨"calculate_option_profit", fun _ => ToolOutcome.exn "division by zero"⟩]

/-- A batch of two calls: the first raises, the second is unknown. -/
def cex1Calls : List ToolCall :=
  [⟨"call1", "calculate_option_profit", []⟩, ⟨"call2", "get_weather", []⟩]

/-- A registry with one raising tool and one succeeding tool. -/
def cex2Tools : List RTool :=
  [⟨"boom", fun _ => ToolOutcome.exn "kaboom"⟩,
   ⟨"echo", fun _ => ToolOutcome.ok "echoed"⟩]

/-- A batch whose first call raises and whose second call would succeed. -/
def cex2Calls : List ToolCall :=
  [⟨"call1", "boom", []⟩, ⟨"call2", "echo", []⟩]

/-- A registry whose only tool raises. -/
def cex3Tools : List RTool :=
  [⟨"boomer", fun _ => ToolOutcome.exn "bang"⟩]

/-- A batch with an unknown-name call followed by a raising call. -/
def cex3Calls : List ToolCall :=
  [⟨"call1", "doesNotExist", []⟩, ⟨"call2", "boomer", []⟩]

/-- A registry with one well-behaved tool. -/
def okTools : List RTool :=
  [⟨"get_weather", fun _ => ToolOutcome.ok "Its 60 degrees and foggy."⟩]

/-- A batch with one known call and one unknown call, none raising. -/
def okCalls : List ToolCall :=
  [⟨"call1", "get_weather", []⟩, ⟨"call2", "doesNotExist", []⟩]

/-! ## Conversation messages and the router -/

/-- One turn of the conversation.  `system`/`user`/`tool` messages carry no
tool-call requests (`langchain` gives only `AIMessage` a `tool_calls`
attribute, so `hasattr(m, 'tool_calls')` holds exactly for assistant
messages). -/
inductive Msg where
  | system (content : String)
  | user (content : String)
  | assistant (content : String) (tool_calls : List ToolCall)
  | tool (content : String) (tool_call_id : String)
deriving DecidableEq

/-- Where the conditional edge goes: the `"tools"` node or `END`. -/
inductive Route where
  | tools
  | end_
deriving DecidableEq

/-- `should_continue` (`src/src/agent/agent.py` lines 39-44): inspect
`messages[-1]`; return `"tools"` iff it is an `AIMessage` whose `tool_calls`
is non-empty, `END` otherwise.  Python raises `IndexError` on an empty list,
hence the non-emptiness precondition. -/
def should_continue (messages : List Msg) (h : messages ≠ []) : Route :=
  match messages.getLast h with
  | Msg.assistant _ tcs => if tcs.isEmpty then Route.end_ else Route.tools
  | _ => Route.end_

/-- `tools_condition` (`src/gradio_main.py` lines 169-175): in that graph
variant the state's `messages` field holds a single message; route to
`"tools"` iff it has a non-empty `tool_calls` attribute. -/
def tools_condition (messages : Msg) : Route :=
  match messages with
  | Msg.assistant _ tcs => if tcs.isEmpty then Route.end_ else Route.tools
  | _ => Route.end_

/-! ## The `Assistant` re-prompt loop (`src/gradio_main.py` lines 91-139) -/

/-- A message as the bound model runnable receives it (`Assistant.__call__`
converts the state's `(role, content)` tuples to these). -/
inductive LCMsg where
  | human (content : String)
  | ai (content : String)

/-- One model turn as `Assistant.__call__` inspects it: `result.content`
(`""` models missing/empty content; the content-blocks list variant of the
emptiness test is subsumed) and `result.tool_calls`. -/
structure ModelResult where
  content : String
  tool_calls : List ToolCall

/-- The message conversion in `Assistant.__call__` (list case, lines
109-115): `"user"` tuples become `HumanMessage`, `"assistant"` tuples
`AIMessage`, anything else is skipped. -/
def toLCMessages (msgs : List (String × String)) : List LCMsg :=
  msgs.filterMap (fun rc =>
    if rc.1 = "user" then some (LCMsg.human rc.2)
    else if rc.1 = "assistant" then some (LCMsg.ai rc.2)
    else none)

/-- What `Assistant.__call__` returns: the model result and the `"next"`
tag. -/
structure AssistantOut where
  result : ModelResult
  next : String

/-- `Assistant.__call__`'s `while True` loop: invoke the runnable; a turn
with tool calls returns `next = "tools"`; a turn with content breaks and
returns `next = "end"`; an empty turn appends the corrective user tuple
`("user", "Respond with a real output.")` and loops again.  The Python loop
has NO iteration bound; the `fuel` parameter counts loop iterations, and
`none` means the loop is still running after `fuel` iterations. -/
def assistantCall (runnable : List LCMsg → ModelResult) :
    Nat → List (String × String) → Option AssistantOut
  | 0, _ => none
  | fuel + 1, stateMsgs =>
    let result := runnable (toLCMessages stateMsgs)
    if result.tool_calls.isEmpty = false then some ⟨result, "tools"⟩
    else if result.content = "" then
      assistantCall runnable fuel (stateMsgs ++ [("user", "Respond with a real output.")])
    else some ⟨result, "end"⟩

/-! ## The agent graph (`src/src/agent/agent.py`) and the REPL turn loop
(`src/main.py`) -/

/-- The `tool_calls` attribute of a message (empty for non-assistant
messages). -/
def toolCallsOf : Msg → List ToolCall
  | Msg.assistant _ tcs => tcs
  | _ => []

/-- `call_model` (`src/src/agent/agent.py` lines 46-51): if the state does
not start with a system message, prepend one for THIS invocation only (the
prepended copy is not written back to the state); the node returns
`{"messages": [response]}`, which `MessagesState` appends — modelled as
returning the single response message to append. -/
def call_model (sysPrompt : String) (model : List Msg → Msg) (state : List Msg) : Msg :=
  match state with
  | Msg.system _ :: _ => model state
  | _ => model (Msg.system sysPrompt :: state)

/-- The compiled graph's execution, as the full state after each super-step
(node run): `START → agent`, then `should_continue` routes to the `tools`
node (langgraph's `ToolNode`, an external collaborator: it appends one tool
message per requested call, correlated by id) and back to `agent`, or to
`END`.  `fuel` bounds the number of agent-node runs. -/
def agentSteps (sysPrompt : String) (model : List Msg → Msg) (toolExec : ToolCall → String) :
    Nat → List Msg → List (List Msg)
  | 0, _ => []
  | fuel + 1, state =>
    let response := call_model sysPrompt model state
    match should_continue (state ++ [response]) (by simp) with
    | Route.tools =>
      let s2 := (state ++ [response]) ++
        (toolCallsOf response).map (fun tc => Msg.tool (toolExec tc) tc.id)
      (state ++ [response]) :: s2 :: agentSteps sysPrompt model toolExec fuel s2
    | Route.end_ => [state ++ [response]]

/-- `app.stream({"messages": messages}, stream_mode="values")`: the chunks
are full state values — the input state first, then the state after each
node. -/
def stream_values (sysPrompt : String) (model : List Msg → Msg) (toolExec : ToolCall → String)
    (fuel : Nat) (input : List Msg) : List (List Msg) :=
  input :: agentSteps sysPrompt model toolExec fuel input

/-- One iteration of `main()`'s REPL loop (`src/main.py` lines 17-49): append
the user's message, stream the graph, and — inside the chunk loop — run
`messages.extend(chunk["messages"])` for EVERY chunk, i.e. append every full
state value to the conversation log. -/
def mainLoopTurn (sysPrompt : String) (model : List Msg → Msg) (toolExec : ToolCall → String)
    (fuel : Nat) (messages : List Msg) (user_input : String) : List Msg :=
  let withUser := messages ++ [Msg.user user_input]
  withUser ++ (stream_values sysPrompt model toolExec fuel withUser).flatten

/-- How many system messages a conversation log holds. -/
def countSystem (msgs : List Msg) : Nat :=
  msgs.countP (fun m => match m with | Msg.system _ => true | _ => false)

/-! ## The Streamlit front end (`src/app.py`) -/

/-- The agent input state built at the start of every turn
(`src/app.py` line 27): exactly the system message and the current user
message. -/
def messages_state (sysPrompt message : String) : List Msg :=
  [Msg.system sysPrompt, Msg.user message]

/-- The Clear Chat action (`src/app.py` lines 138-140):
`st.session_state.messages = []`. -/
def clearChat (_msgs : List (String × String)) : List (String × String) :=
  []

/-! ## The argument-coercion step at the tool call sites
(`src/app.py` lines 44-52; the same code appears verbatim in
`src/main.py` lines 35-43 and `src/gradio_main.py` lines 34-41) -/

/-- `args[key]` / `args.get(key)` on the argument mapping. -/
def lookupArg (args : Args) (key : String) : Option JVal :=
  (args.find? (fun p => p.1 == key)).map (fun p => p.2)

/-- Python dict update `{**args, key: v}` for one key: replace in place when
the key exists, append otherwise (insertion order preserved). -/
def dictSet (args : Args) (key : String) (v : JVal) : Args :=
  if args.any (fun p => p.1 == key) then
    args.map (fun p => if p.1 == key then (key, v) else p)
  else args ++ [(key, v)]

/-- Digits of a decimal literal to a number; `none` when empty or a non-digit
appears (Python `float` would raise `ValueError`). -/
def parseDigits? (cs : List Char) : Option Nat :=
  if cs.isEmpty then none
  else
    cs.foldl
      (fun acc c =>
        acc.bind (fun n => if c.isDigit then some (n * 10 + (c.toNat - 48)) else none))
      (some 0)

/-- Python's `float(x)` as the call sites use it: a number passes through, a
plain decimal string (optional minus sign, digits, optional fractional part)
parses exactly; anything else is `none`, modelling the `ValueError` that
would propagate to the surrounding `try`.  (Exotic accepted forms such as
`"inf"` or exponent notation never arise here and are not modelled.) -/
def pyFloat : JVal → Option Rat
  | JVal.num q => some q
  | JVal.str s =>
    let cs := s.toList
    let neg : Bool := cs.head? = some '-'
    let body := if neg then cs.tail else cs
    let sign : Rat := if neg then -1 else 1
    let intPart := body.takeWhile (fun c => c ≠ '.')
    let rest := body.dropWhile (fun c => c ≠ '.')
    if rest.isEmpty then (parseDigits? intPart).map (fun n => sign * (n : Rat))
    else if rest.tail.contains '.' then none
    else
      match parseDigits? intPart, parseDigits? rest.tail with
      | some n, some f =>
        some (sign * ((n : Rat) + (f : Rat) / (10 : Rat) ^ rest.tail.length))
      | _, _ => none

/-- The argument adjustment performed right before `tool.invoke(args)`
(`src/app.py` lines 44-52): ONLY the name
`analyze_single_stock_and_fixed_savings` is special-cased —
`monthly_investment` is passed through `float()` (a missing key raises
`KeyError`, modelled as `none`), `stock_allocation` defaults to `1.0` and
`savings_rate` to `0.045` before their own `float()`.  Every other tool's
arguments are passed through untouched. -/
def adjustArgs (name : String) (args : Args) : Option Args :=
  if name = "analyze_single_stock_and_fixed_savings" then
    match lookupArg args "monthly_investment" with
    | none => none
    | some v =>
      match pyFloat v with
      | none => none
      | some mi =>
        match pyFloat ((lookupArg args "stock_allocation").getD (JVal.num 1)),
              pyFloat ((lookupArg args "savings_rate").getD (JVal.num (45 / 1000))) with
        | some sa, some sr =>
          some (dictSet (dictSet (dictSet args "monthly_investment" (JVal.num mi))
                  "stock_allocation" (JVal.num sa)) "savings_rate" (JVal.num sr))
        | _, _ => none
  else some args

/-! ## `calculate_option_profit` (`src/src/tools/options.py` lines 6-66) -/

/-- Where `calculate_option_profit` ends up: one of its three validation
error strings, or the pricing stage (the `mibian`/`numpy` profit-loss matrix,
an external numeric computation reached only after validation passes). -/
inductive OptionProfitResult where
  | error (msg : String)
  | analysis
deriving DecidableEq

/-- The input validation prefix of `calculate_option_profit` (lines 17-25),
checked in source order before any pricing work.  `option_type not in
['p', 'c']` is the first guard; the `interest_rate` parameter feeds only the
pricing stage and is omitted here. -/
def calculate_option_profit (current_price strike_price : Rat) (days_to_expiry : Int)
    (option_type : String) (initial_price : Rat) (contracts : Int) : OptionProfitResult :=
  if option_type ≠ "p" ∧ option_type ≠ "c" then
    OptionProfitResult.error "Error: option_type must be 'p' for put or 'c' for call"
  else if current_price ≤ 0 ∨ strike_price ≤ 0 ∨ days_to_expiry < 0 ∨ initial_price < 0 then
    OptionProfitResult.error "Error: prices and days must be positive numbers"
  else if contracts < 1 then
    OptionProfitResult.error "Error: number of contracts must be at least 1"
  else OptionProfitResult.analysis

/-! ## `calculate_compound_interest`
(`src/src/tools/compound_interest_calculator.py` lines 4-93) -/

/-- The numbers the report string interpolates (the `Results:` section of the
returned report; the`f`-string formatting itself is presentation and is not
modelled). -/
structure CIResult where
  total_invested : Rat
  total_returns : Rat
  future_value : Rat
deriving DecidableEq

/-- Line 31, `stop_investing_age = stop_investing_age or future_age`: Python
`or` replaces both `None` and the falsy `0` by `future_age`. -/
def resolveStop (stop_investing_age : Option Int) (future_age : Int) : Int :=
  match stop_investing_age with
  | none => future_age
  | some s => if s = 0 then future_age else s

/-- `calculate_compound_interest`'s computation.  Exponents are `Int` values
cast with `toNat`; after the age validation they are non-negative, so the
cast is exact on every reachable path.  Line 38's
`future_age - stop_investing_age if stop_investing_age else 0` tests the
resolved stop age for truthiness. -/
def calculate_compound_interest (start_age : Int) (monthly_investment : Rat)
    (annual_return : Rat) (future_age : Int) (stop_investing_age : Option Int)
    (initial_investment : Rat) : Except String CIResult :=
  if future_age < start_age then
    Except.error "Error: Future age must be greater than start age"
  else
    let stop := resolveStop stop_investing_age future_age
    if stop < start_age ∨ stop > future_age then
      Except.error "Error: Stop investing age must be between start age and future age"
    else
      let total_years := future_age - start_age
      let contributing_years := stop - start_age
      let growth_only_years : Int := if stop = 0 then 0 else future_age - stop
      let monthly_rate := annual_return / 100 / 12
      let contributing_months := contributing_years * 12
      let total_months := total_years * 12
      let initial_future_value :=
        if monthly_rate > 0 then
          initial_investment * (1 + monthly_rate) ^ total_months.toNat
        else initial_investment
      let monthly_future_value :=
        if monthly_rate > 0 then
          if contributing_months > 0 then
            monthly_investment * ((1 + monthly_rate) ^ contributing_months.toNat - 1)
                / monthly_rate
              * (1 + monthly_rate) ^ (growth_only_years * 12).toNat
          else 0
        else monthly_investment * (contributing_months : Rat)
      let total_invested := initial_investment + monthly_investment * (contributing_months : Rat)
      let future_value := initial_future_value + monthly_future_value
      Except.ok ⟨total_invested, future_value - total_invested, future_value⟩

/-! ## Theorems

Helper lemmas about the dispatch loop, shared by the claims about the Tool
Dispatcher. -/

/-- Helper: when every per-call step of a batch succeeds (unknown names
included — the loop turns them into not-found strings without raising), the
dispatch loop returns one result per call, in request order. -/
theorem runToolCalls_ok (tools : List RTool) :
    ∀ calls : List ToolCall,
      (∀ c ∈ calls, exceptIsOk (perCallResult tools c) = true) →
      ∃ rs, runToolCalls tools calls = Except.ok rs ∧ rs.length = calls.length ∧
        ∀ i (h1 : i < calls.length) (h2 : i < rs.length),
          perCallResult tools (calls.get ⟨i, h1⟩) = Except.ok (rs.get ⟨i, h2⟩) := by
  intro calls
  induction calls with
  | nil =>
    intro _
    exact ⟨[], rfl, rfl, fun i h1 _ => absurd h1 (Nat.not_lt_zero i)⟩
  | cons c cs ih =>
    intro H
    have hc := H c (List.mem_cons_self c cs)
    cases hpc : perCallResult tools c with
    | error m => rw [hpc] at hc; exact absurd hc (by simp [exceptIsOk])
    | ok r =>
      obtain ⟨rs, hrs, hlen, hget⟩ := ih (fun a ha => H a (List.mem_cons_of_mem _ ha))
      refine ⟨r :: rs, ?_, by simp [hlen], ?_⟩
      · simp [runToolCalls, hpc, hrs, Except.map]
      · intro i h1 h2
        cases i with
        | zero => simpa using hpc
        | succ n =>
          simpa using hget n (by simpa using h1) (by simpa using h2)

/-- Helper: the first per-call exception makes the whole dispatch loop
return that exception's message, whatever calls follow — the accumulated
earlier results are discarded with the `try` block's local variable. -/
theorem runToolCalls_error (tools : List RTool) :
    ∀ (pre : List ToolCall) (c : ToolCall) (rest : List ToolCall) (m : String),
      (∀ a ∈ pre, exceptIsOk (perCallResult tools a) = true) →
      perCallResult tools c = Except.error m →
      runToolCalls tools (pre ++ c :: rest) = Except.error m := by
  intro pre
  induction pre with
  | nil => intro c rest m _ hc; simp [runToolCalls, hc]
  | cons a pre ih =>
    intro c rest m H hc
    have ha := H a (List.mem_cons_self a pre)
    cases hpa : perCallResult tools a with
    | error m2 => rw [hpa] at ha; exact absurd ha (by simp [exceptIsOk])
    | ok r =>
      simp [runToolCalls, hpa, ih c rest m (fun b hb => H b (List.mem_cons_of_mem _ hb)) hc,
        Except.map]

/-- C1 (amended): for every non-empty dispatch batch in which no tool
execution raises an exception, `tool_node_with_fallback` produces exactly
one result string per request, in an order-preserving positional 1:1
correspondence with the requests (an unknown name yields its per-call
not-found string).  The original claim's correlation `by tool_call_id`
cannot hold — the produced results are plain strings carrying no id — and
its `even when every call fails` part fails for exceptions, see the
counterexample. -/
theorem dispatch_batch_results (tools : List RTool) (tool_calls : List ToolCall)
    (hne : tool_calls ≠ [])
    (hok : ∀ c ∈ tool_calls, exceptIsOk (perCallResult tools c) = true) :
    ∃ rs, tool_node_with_fallback tools tool_calls = NodeMsgs.results rs ∧
      rs.length = tool_calls.length ∧
      ∀ i (h1 : i < tool_calls.length) (h2 : i < rs.length),
        perCallResult tools (tool_calls.get ⟨i, h1⟩) = Except.ok (rs.get ⟨i, h2⟩) := by
  obtain ⟨rs, hrs, hlen, hget⟩ := runToolCalls_ok tools tool_calls hok
  refine ⟨rs, ?_, hlen, hget⟩
  simp [tool_node_with_fallback, hrs, List.isEmpty_iff, hne]

/-- C1 witness: a concrete two-call batch (one known tool, one unknown name)
yields exactly two results in order. -/
theorem dispatch_batch_results_witness :
    ∃ rs, tool_node_with_fallback okTools okCalls = NodeMsgs.results rs ∧
      rs.length = okCalls.length ∧
      ∀ i (h1 : i < okCalls.length) (h2 : i < rs.length),
        perCallResult okTools (okCalls.get ⟨i, h1⟩) = Except.ok (rs.get ⟨i, h2⟩) :=
  dispatch_batch_results okTools okCalls (by simp [okCalls]) (by decide)

/-- C1 counterexample: a batch of N = 2 requests whose first call raises
produces ONE message (the batch-level error text), not two results — the
claim's `exactly N ToolResults ... even when every call fails` is false of
the code. -/
theorem dispatch_batch_results_cex :
    tool_node_with_fallback cex1Tools cex1Calls =
      NodeMsgs.text "Error executing tool: division by zero" ∧
    (messagesOf (tool_node_with_fallback cex1Tools cex1Calls)).length = 1 ∧
    cex1Calls.length = 2 :=
  ⟨rfl, rfl, rfl⟩

/-- C2 (amended): an exception raised by a tool execution is caught by the
node (the dispatch function still returns a value) but is converted into a
SINGLE batch-level error message, not a per-call error result: the output is
the first faulting call's message alone, independent of the calls after it
(`rest` is universally quantified and absent from the conclusion — those
calls are never executed) and the results of the earlier calls are
discarded. -/
theorem dispatch_exception_single_error (tools : List RTool) (pre : List ToolCall)
    (c : ToolCall) (rest : List ToolCall) (m : String)
    (hpre : ∀ a ∈ pre, exceptIsOk (perCallResult tools a) = true)
    (hc : perCallResult tools c = Except.error m) :
    tool_node_with_fallback tools (pre ++ c :: rest) =
      NodeMsgs.text ("Error executing tool: " ++ m) := by
  have h := runToolCalls_error tools pre c rest m hpre hc
  simp [tool_node_with_fallback, h]

/-- C2 witness: a concrete three-call batch whose middle call raises
collapses to the single error text. -/
theorem dispatch_exception_single_error_witness :
    tool_node_with_fallback cex2Tools
        ([⟨"w1", "echo", []⟩] ++ ⟨"w2", "boom", []⟩ :: [⟨"w3", "echo", []⟩]) =
      NodeMsgs.text ("Error executing tool: " ++ "kaboom") :=
  dispatch_exception_single_error cex2Tools [⟨"w1", "echo", []⟩] ⟨"w2", "boom", []⟩
    [⟨"w3", "echo", []⟩] "kaboom" (by decide) rfl

/-- C2 counterexample: in the batch `[boom, echo]` the first call's
exception leaves no per-call error result and the second call's output
`"echoed"` appears nowhere — the remaining calls of the batch are NOT still
executed, contrary to the claim. -/
theorem dispatch_exception_cex :
    tool_node_with_fallback cex2Tools cex2Calls =
      NodeMsgs.text "Error executing tool: kaboom" ∧
    "echoed" ∉ messagesOf (tool_node_with_fallback cex2Tools cex2Calls) :=
  ⟨rfl, by decide⟩

/-- C3 (amended): in a batch where no tool execution raises, every request
whose name is not in the registry yields the string
`Tool <name> not found` at its own position among exactly N results, and the
batch continues past it.  When some execution in the batch raises, even the
not-found results are replaced by the single batch error message, see the
counterexample. -/
theorem dispatch_unknown_tool_not_found (tools : List RTool) (tool_calls : List ToolCall)
    (i : Nat) (h1 : i < tool_calls.length)
    (hok : ∀ c ∈ tool_calls, exceptIsOk (perCallResult tools c) = true)
    (hun : tools.find? (fun t => t.name == (tool_calls.get ⟨i, h1⟩).name) = none) :
    ∃ rs, tool_node_with_fallback tools tool_calls = NodeMsgs.results rs ∧
      rs.length = tool_calls.length ∧
      ∀ h2 : i < rs.length,
        rs.get ⟨i, h2⟩ = "Tool " ++ (tool_calls.get ⟨i, h1⟩).name ++ " not found" := by
  have hne : tool_calls ≠ [] := by
    intro h; rw [h] at h1; exact absurd h1 (by simp)
  obtain ⟨rs, hrs, hlen, hget⟩ := runToolCalls_ok tools tool_calls hok
  refine ⟨rs, ?_, hlen, ?_⟩
  · simp [tool_node_with_fallback, hrs, List.isEmpty_iff, hne]
  · intro h2
    have hthis := hget i h1 h2
    simp only [perCallResult, hun] at hthis
    exact (Except.ok.inj hthis).symm

/-- C3 witness: the spec's own test — requesting only `doesNotExist` yields
the not-found result and the dispatch returns normally. -/
theorem dispatch_unknown_tool_not_found_witness :
    ∃ rs, tool_node_with_fallback okTools [⟨"w1", "doesNotExist", []⟩] = NodeMsgs.results rs ∧
      rs.length = 1 ∧
      ∀ h2 : 0 < rs.length, rs.get ⟨0, h2⟩ = "Tool doesNotExist not found" :=
  dispatch_unknown_tool_not_found okTools [⟨"w1", "doesNotExist", []⟩] 0 (by decide) (by decide)
    rfl

/-- C3 counterexample: in the batch `[doesNotExist, boomer]` the second
call's exception discards the first call's not-found result: the output
carries NO result for the unknown-name request, so that request is silently
dropped, contrary to the claim. -/
theorem dispatch_unknown_tool_cex :
    tool_node_with_fallback cex3Tools cex3Calls = NodeMsgs.text "Error executing tool: bang" ∧
    "Tool doesNotExist not found" ∉ messagesOf (tool_node_with_fallback cex3Tools cex3Calls) :=
  ⟨rfl, by decide⟩

/-- Helper: the routing decision on a single message — `tools` exactly for
an assistant message with non-empty `tool_calls`. -/
theorem route_on_message (m : Msg) :
    tools_condition m = Route.tools ↔
      ∃ content tcs, m = Msg.assistant content tcs ∧ tcs ≠ [] := by
  cases m with
  | assistant c tcs =>
    by_cases he : tcs = []
    · subst he; simp [tools_condition]
    · simp [tools_condition, List.isEmpty_iff, he]
      exact ⟨c, tcs, ⟨rfl, rfl⟩, he⟩
  | system c => simp [tools_condition]
  | user c => simp [tools_condition]
  | tool c i => simp [tools_condition]

/-- C6: both routers return the tools route if and only if the inspected
message (the last message of the state for `should_continue`, the single
state message for `tools_condition`) is an assistant message with a
non-empty `tool_calls` sequence; every other shape — assistant with no tool
calls (empty content included), system, user, tool — routes to
termination. -/
theorem router_decides_tools_iff :
    (∀ (messages : List Msg) (h : messages ≠ []),
        should_continue messages h = Route.tools ↔
          ∃ content tcs, messages.getLast h = Msg.assistant content tcs ∧ tcs ≠ []) ∧
    (∀ m : Msg, tools_condition m = Route.tools ↔
        ∃ content tcs, m = Msg.assistant content tcs ∧ tcs ≠ []) :=
  ⟨fun messages h => route_on_message (messages.getLast h), route_on_message⟩

/-- C6 witness: a one-message state whose assistant message requests a tool
routes to the tools node. -/
theorem router_decides_tools_iff_witness :
    should_continue [Msg.assistant "" [⟨"w1", "get_weather", []⟩]] (List.cons_ne_nil _ _) =
      Route.tools :=
  (router_decides_tools_iff.1 [Msg.assistant "" [⟨"w1", "get_weather", []⟩]]
      (List.cons_ne_nil _ _)).mpr ⟨"", [⟨"w1", "get_weather", []⟩], rfl, by simp⟩

/-- C4 (code bug): against a model that always returns an assistant turn
with empty content and no tool calls, `Assistant.__call__` never returns —
for EVERY iteration bound the loop is still running (it keeps appending the
corrective user tuple and re-invoking the model, with no retry cap and no
`EmptyResponse` outcome anywhere in the code).  The claim's bounded-retry
behaviour is the spec's mandated fix for this liveness bug (spec section 9). -/
theorem assistant_empty_response_diverges :
    ∀ (fuel : Nat) (stateMsgs : List (String × String)),
      assistantCall (fun _ => ⟨"", []⟩) fuel stateMsgs = none := by
  intro fuel
  induction fuel with
  | zero => intro _; rfl
  | succ n ih =>
    intro msgs
    simpa [assistantCall] using ih (msgs ++ [("user", "Respond with a real output.")])

/-- C5 (code bug): one ordinary REPL turn — state seeded with one system
message, user says `"hi"`, the model answers with plain content — leaves the
conversation log with THREE system messages, because `main()` extends
`messages` with every full-state chunk of the stream.  The claimed invariant
(exactly one system message, never duplicated) is false of `src/main.py`. -/
theorem main_turn_duplicates_system :
    countSystem (mainLoopTurn "S" (fun _ => Msg.assistant "hello" []) (fun _ => "") 1
      [Msg.system "S"] "hi") = 3 := rfl

/-- C7 (amended): the argument coercion at the call sites is special-cased
per tool, not schema-driven: every tool other than
`analyze_single_stock_and_fixed_savings` has its arguments passed through
unmodified (no string-to-number coercion, no defaults, no missing-argument
handling), while for that one hard-coded name `monthly_investment` is parsed
by `float()` and `stock_allocation` / `savings_rate` receive the hard-coded
defaults `1.0` / `0.045`. -/
theorem coercion_special_cased (name : String) (args : Args)
    (h : name ≠ "analyze_single_stock_and_fixed_savings") :
    adjustArgs name args = some args ∧
    adjustArgs "analyze_single_stock_and_fixed_savings"
        [("monthly_investment", JVal.str "500")] =
      some [("monthly_investment", JVal.num 500), ("stock_allocation", JVal.num 1),
            ("savings_rate", JVal.num (45 / 1000))] := by
  constructor
  · simp [adjustArgs, h]
  · simp [adjustArgs, lookupArg, dictSet, pyFloat, parseDigits?]

/-- C7 witness: `calculate_compound_interest` is not the special-cased name,
so its string-valued `monthly_investment` is passed through untouched. -/
theorem coercion_special_cased_witness :
    adjustArgs "calculate_compound_interest" [("monthly_investment", JVal.str "500")] =
      some [("monthly_investment", JVal.str "500")] ∧
    adjustArgs "analyze_single_stock_and_fixed_savings"
        [("monthly_investment", JVal.str "500")] =
      some [("monthly_investment", JVal.num 500), ("stock_allocation", JVal.num 1),
            ("savings_rate", JVal.num (45 / 1000))] :=
  coercion_special_cased "calculate_compound_interest"
    [("monthly_investment", JVal.str "500")] (by decide)

/-- C7 counterexample: a request for the registered tool
`calculate_compound_interest` with `monthly_investment` given as the string
`"500"` reaches `invoke` with the string still uncoerced — the claimed
schema-driven coercion `for every registered tool` does not happen. -/
theorem coercion_not_schema_driven_cex :
    adjustArgs "calculate_compound_interest" [("monthly_investment", JVal.str "500")] =
      some [("monthly_investment", JVal.str "500")] ∧
    JVal.str "500" ≠ JVal.num 500 :=
  ⟨rfl, by decide⟩

/-- C8 (amended): the Clear Chat action resets the session's message log to
the EMPTY list, not to the system message; the system message is not kept in
that log at all — it is re-seeded at the start of every turn, when
`process_agent_message` builds the fresh agent state
`[system, user]` (which therefore contains exactly one system message). -/
theorem clear_chat_resets_to_empty (msgs : List (String × String))
    (sysPrompt message : String) :
    clearChat msgs = [] ∧
    messages_state sysPrompt message = [Msg.system sysPrompt, Msg.user message] ∧
    countSystem (messages_state sysPrompt message) = 1 :=
  ⟨rfl, rfl, rfl⟩

/-- C8 counterexample: clearing a one-message session yields the empty list,
which does not consist of exactly the system message (its length is 0, not
1). -/
theorem clear_chat_cex :
    clearChat [("user", "hi")] = [] ∧ (clearChat [("user", "hi")]).length ≠ 1 :=
  ⟨rfl, by decide⟩

/-- C9: whenever `option_type` is neither `"p"` nor `"c"`, or
`current_price ≤ 0`, or `strike_price ≤ 0`, or `days_to_expiry < 0`, or
`initial_price < 0`, or `contracts < 1`, `calculate_option_profit` returns
one of its validation error strings (a total result — no exception) and
never reaches the pricing computation. -/
theorem option_profit_validation (current_price strike_price : Rat) (days_to_expiry : Int)
    (option_type : String) (initial_price : Rat) (contracts : Int)
    (h : ¬(option_type = "p" ∨ option_type = "c") ∨ current_price ≤ 0 ∨ strike_price ≤ 0 ∨
      days_to_expiry < 0 ∨ initial_price < 0 ∨ contracts < 1) :
    (∃ msg, calculate_option_profit current_price strike_price days_to_expiry option_type
        initial_price contracts = OptionProfitResult.error msg) ∧
    calculate_option_profit current_price strike_price days_to_expiry option_type
        initial_price contracts ≠ OptionProfitResult.analysis := by
  unfold calculate_option_profit
  split_ifs with h1 h2 h3
  · exact ⟨⟨_, rfl⟩, by simp⟩
  · exact ⟨⟨_, rfl⟩, by simp⟩
  · exact ⟨⟨_, rfl⟩, by simp⟩
  · exfalso
    rcases h with h | h | h | h | h | h
    · exact h1 ⟨fun hp => h (Or.inl hp), fun hc => h (Or.inr hc)⟩
    all_goals tauto

/-- C9 witness: the invalid option type `"x"` hits the first validation
guard. -/
theorem option_profit_validation_witness :
    (∃ msg, calculate_option_profit 100 105 30 "x" (3 / 2) 1 =
      OptionProfitResult.error msg) ∧
    calculate_option_profit 100 105 30 "x" (3 / 2) 1 ≠ OptionProfitResult.analysis :=
  option_profit_validation 100 105 30 "x" (3 / 2) 1 (Or.inl (by decide))

/-- C10: with `annual_return = 0` the monthly rate is `0`, the computation
takes the guarded zero-rate branch (which contains no division by the rate),
and for all valid ages the reported final amount is exactly
`initial_investment + monthly_investment * contributing_months` with zero
total returns. -/
theorem compound_interest_zero_rate (start_age : Int) (monthly_investment : Rat)
    (future_age : Int) (stop_investing_age : Option Int) (initial_investment : Rat)
    (h1 : start_age ≤ future_age)
    (h2 : start_age ≤ resolveStop stop_investing_age future_age)
    (h3 : resolveStop stop_investing_age future_age ≤ future_age) :
    calculate_compound_interest start_age monthly_investment 0 future_age stop_investing_age
        initial_investment =
      Except.ok
        { total_invested := initial_investment + monthly_investment *
            (((resolveStop stop_investing_age future_age - start_age) * 12 : Int) : Rat),
          total_returns := 0,
          future_value := initial_investment + monthly_investment *
            (((resolveStop stop_investing_age future_age - start_age) * 12 : Int) : Rat) } := by
  simp only [calculate_compound_interest]
  rw [if_neg (not_lt.mpr h1)]
  rw [if_neg (by push_neg; exact ⟨h2, h3⟩)]
  norm_num

/-- C10 witness: investing 100 a month at 0% from age 20 to 30, evaluated at
age 60, ends with exactly the 13000 contributed. -/
theorem compound_interest_zero_rate_witness :
    calculate_compound_interest 20 100 0 60 (some 30) 1000 =
      Except.ok
        { total_invested := 1000 + 100 * (((resolveStop (some 30) 60 - 20) * 12 : Int) : Rat),
          total_returns := 0,
          future_value := 1000 + 100 * (((resolveStop (some 30) 60 - 20) * 12 : Int) : Rat) } :=
  compound_interest_zero_rate 20 100 60 (some 30) 1000 (by decide) (by decide) (by decide)

end NaviAgent
